import Mathlib

set_option maxHeartbeats 1000000
set_option maxRecDepth 8000

/-!
Shallow embedding of the EcoMarket return-workflow core
(`src/agent_tools.py` and `src/agent.py` of the repository
`ecomarket-rag-assistant`), together with theorems settling the frozen
claims C1..C10 about it.

Modelling conventions:
* Python dicts returned by the tools are typed structures whose fields are
  `Option`-valued exactly where the source writes a dict that may omit the
  key (a `.get` on a missing key is `none`, printed as `"None"` like
  Python's `str(None)`).
* `datetime.now()` is made explicit as a `DateTime` argument `now`: the
  source reads the ambient wall clock at that point.
* The order database `data/pedidos.json` loaded by `_cargar_pedidos` is an
  explicit `List Pedido` argument; the record schema follows the fields the
  source reads (`agent_tools.py`) and writes (`src/ingest_data.py`, which
  also reads `fecha_estimada` from the same records).
* `(fecha_actual - fecha_entrega_dt).days` for `fecha_actual` an arbitrary
  datetime and `fecha_entrega_dt` a midnight datetime equals the difference
  of the two proleptic-Gregorian ordinals, because
  `(d*86400 + tod) / 86400 = d` for `0 ≤ tod < 86400`; `diasTranscurridos`
  below uses that form directly.
-/

namespace EcoMarket

/-- Python `str.lower` restricted to the alphabet this repository uses
(ASCII plus the Spanish uppercase vowels/Ñ/Ü). -/
def pyLowerChar (c : Char) : Char :=
  if c = 'Á' then 'á' else if c = 'É' then 'é' else if c = 'Í' then 'í'
  else if c = 'Ó' then 'ó' else if c = 'Ú' then 'ú' else if c = 'Ü' then 'ü'
  else if c = 'Ñ' then 'ñ' else c.toLower

/-- Python `str.lower` on a whole string. -/
def pyLower (s : String) : String := String.mk (s.data.map pyLowerChar)

/-- Python `str(x)` for an optional string (`str(None) = "None"`). -/
def pyStr (o : Option String) : String := o.getD "None"

/-- Python truthiness of an optional string: `None` and `""` are falsy. -/
def truthy : Option String → Option String
  | none => none
  | some s => if s = "" then none else some s

/-- Char-list version of `List.IsPrefix`, as a boolean. -/
def esPrefijo : List Char → List Char → Bool
  | [], _ => true
  | _ :: _, [] => false
  | c :: cs, d :: ds => c == d && esPrefijo cs ds

/-- Does `needle` occur starting at some position of the haystack? -/
def apareceEn (needle : List Char) : List Char → Bool
  | [] => esPrefijo needle []
  | c :: rest => esPrefijo needle (c :: rest) || apareceEn needle rest

/-- Python `needle in haystack` substring test. -/
def mentions (needle s : String) : Bool := apareceEn needle.data s.data

/-- Calendar date (proleptic Gregorian), as carried by `datetime.date`. -/
structure Date where
  year : Nat
  month : Nat
  day : Nat
  deriving Repr, DecidableEq

/-- Wall-clock instant as carried by `datetime.datetime` (microseconds are
omitted: no claim depends on them). -/
structure DateTime where
  date : Date
  hour : Nat
  minute : Nat
  second : Nat
  deriving Repr, DecidableEq

/-- Gregorian leap-year test, as in Python's `calendar`/`datetime`. -/
def esBisiesto (y : Nat) : Bool := y % 4 = 0 && (y % 100 ≠ 0 || y % 400 = 0)

/-- Days in a month of a given year. -/
def diasEnMes (y m : Nat) : Nat :=
  if m = 2 then (if esBisiesto y then 29 else 28)
  else if m = 4 || m = 6 || m = 9 || m = 11 then 30
  else 31

/-- Cumulative days before month `m` in a non-leap year. -/
def diasAntesDeMesComun (m : Nat) : Nat :=
  match m with
  | 1 => 0 | 2 => 31 | 3 => 59 | 4 => 90 | 5 => 120 | 6 => 151
  | 7 => 181 | 8 => 212 | 9 => 243 | 10 => 273 | 11 => 304 | 12 => 334
  | _ => 0

/-- Days before month `m` in year `y` (leap adjustment included). -/
def diasAntesDeMes (y m : Nat) : Nat :=
  diasAntesDeMesComun m + (if 2 < m && esBisiesto y then 1 else 0)

/-- Python `date.toordinal`: day number in the proleptic Gregorian
calendar, with 0001-01-01 mapped to 1. -/
def toOrdinal (d : Date) : Int :=
  (365 * (d.year - 1) + (d.year - 1) / 4 + (d.year - 1) / 400
    + diasAntesDeMes d.year d.month + d.day : Nat)
  - ((d.year - 1) / 100 : Nat)

/-- Value of a list of decimal digit characters. -/
def natOfDigits (l : List Char) : Nat :=
  l.foldl (fun a c => 10 * a + (c.toNat - '0'.toNat)) 0

/-- Python `datetime.strptime(s, "%Y-%m-%d")`, returning `none` where the
source raises `ValueError`: `%Y` demands exactly four digits, `%m` and `%d`
one or two, and the resulting triple must be a real calendar date. -/
def strptimeYmd (s : String) : Option Date :=
  match s.data.splitOn '-' with
  | [ys, ms, ds] =>
    if ys.length = 4 && ys.all Char.isDigit
        && decide (1 ≤ ms.length) && ms.length ≤ 2 && ms.all Char.isDigit
        && decide (1 ≤ ds.length) && ds.length ≤ 2 && ds.all Char.isDigit then
      let y := natOfDigits ys
      let m := natOfDigits ms
      let d := natOfDigits ds
      if 1 ≤ y && 1 ≤ m && m ≤ 12 && 1 ≤ d && d ≤ diasEnMes y m then
        some ⟨y, m, d⟩
      else none
    else none
  | _ => none

/-- `(fecha_actual - fecha_entrega_dt).days` of the source: whole days
elapsed between the parsed delivery date and the current instant. -/
def diasTranscurridos (now : DateTime) (entrega : Date) : Int :=
  toOrdinal now.date - toOrdinal entrega

/-- Two-digit zero-padded decimal rendering (`%m`/`%d`/`%H`/`%M`/`%S` of
`strftime` on their `0..99` domain). -/
def pad2 (n : Nat) : String :=
  String.mk [Nat.digitChar (n / 10 % 10), Nat.digitChar (n % 10)]

/-- Four-digit zero-padded decimal rendering (`%Y` on `1..9999`). -/
def pad4 (n : Nat) : String :=
  String.mk [Nat.digitChar (n / 1000 % 10), Nat.digitChar (n / 100 % 10),
    Nat.digitChar (n / 10 % 10), Nat.digitChar (n % 10)]

/-- Python `now.strftime("%Y%m%d%H%M%S")`. -/
def strftime14 (t : DateTime) : String :=
  pad4 t.date.year ++ pad2 t.date.month ++ pad2 t.date.day
    ++ pad2 t.hour ++ pad2 t.minute ++ pad2 t.second

/-- Python `now.isoformat()` (without microseconds). -/
def isoformat (t : DateTime) : String :=
  pad4 t.date.year ++ "-" ++ pad2 t.date.month ++ "-" ++ pad2 t.date.day
    ++ "T" ++ pad2 t.hour ++ ":" ++ pad2 t.minute ++ ":" ++ pad2 t.second

/-- Python slice `s[-n:]` (by characters, as Python slices by code point). -/
def pySliceLast (n : Nat) (s : String) : String :=
  String.mk (s.data.reverse.take n).reverse

/-- A line item of an order, with the fields `agent_tools.py` reads
(`nombre`, `categoria`, `dev_aceptada`); `Option` where a `.get` default
exists in the source. -/
structure Producto where
  nombre : Option String := none
  categoria : Option String := none
  dev_aceptada : Bool := false
  deriving Repr, DecidableEq

/-- An order record of `data/pedidos.json`, with the fields the source
reads; `fecha_estimada` is part of the record schema (see
`src/ingest_data.py`) although `agent_tools.py` never returns it. -/
structure Pedido where
  tracking_number : Option String := none
  estado : Option String := none
  transportadora : Option String := none
  destino : Option String := none
  cliente : Option String := none
  fecha_entrega_real : Option String := none
  fecha_estimada : Option String := none
  productos : List Producto := []
  deriving Repr, DecidableEq

/-- Dict returned by `consultar_estado_pedido`; keys that only one of the
two return statements carries are `Option`-valued. -/
structure EstadoResult where
  existe : Bool
  error : Option String := none
  producto_existe : Option Bool := none
  fue_entregado : Bool
  fecha_entrega : Option String := none
  devolucion_en_progreso : Bool
  estado_actual : Option String := none
  transportadora : Option String := none
  destino : Option String := none
  productos : Option (List (Option String)) := none
  deriving Repr, DecidableEq

/-- Dict returned by `verificar_elegibilidad_producto`. -/
structure Elegibilidad where
  es_elegible : Bool
  razon : String
  categoria_proceso : Option String
  pasos_siguientes : List String
  dias_restantes : Option Int := none
  motivo_registrado : Option String := none
  deriving Repr, DecidableEq

/-- Dict returned by `generar_etiqueta_devolucion`; the not-found return
carries only `error` and `rma_id = None`. -/
structure Etiqueta where
  error : Option String := none
  rma_id : Option String := none
  transportadora : Option String := none
  tipo_envio : Option String := none
  instrucciones_cliente : Option String := none
  etiqueta_pdf_url : Option String := none
  fecha_generacion : Option String := none
  orden_original : Option String := none
  producto : Option String := none
  cliente : Option String := none
  direccion_recoleccion : Option String := none
  motivo : Option String := none
  estado_rma : Option String := none
  tiempo_estimado_recoleccion : Option String := none
  deriving Repr, DecidableEq

/-- Tool `consultar_estado_pedido(order_id, product_id=None)` over an
explicit order database. -/
def consultar_estado_pedido (pedidos : List Pedido) (order_id : String)
    (product_id : Option String := none) : EstadoResult :=
  match pedidos.find? (fun p => p.tracking_number == some order_id) with
  | none =>
    { existe := false
      error := some ("No se encontró el pedido " ++ order_id)
      fue_entregado := false
      devolucion_en_progreso := false }
  | some pedido =>
    let fue_entregado := pedido.estado == some "Entregado"
    let fecha_entrega := pedido.fecha_entrega_real.getD ""
    let producto_existe :=
      match product_id with
      | none => true
      | some pid =>
        pedido.productos.any (fun p => pyLower (p.nombre.getD "") == pyLower pid)
    { existe := true
      producto_existe := some (match product_id with | none => true | some _ => producto_existe)
      fue_entregado := fue_entregado
      fecha_entrega := some fecha_entrega
      devolucion_en_progreso := false
      estado_actual := pedido.estado
      transportadora := pedido.transportadora
      destino := pedido.destino
      productos := some (pedido.productos.map (fun p => p.nombre)) }

/-- Categories rejected by rule 1 of the eligibility engine. -/
def categorias_no_retornables : List String :=
  ["Alimento perecedero", "Higiene", "Medicamentos"]

/-- Product conditions rejected by rule 3 of the eligibility engine. -/
def estados_no_elegibles : List String := ["usado"]

/-- Tool `verificar_elegibilidad_producto`; `now` is the instant the
source reads with `datetime.now()` inside the try block. -/
def verificar_elegibilidad_producto (pedidos : List Pedido) (now : DateTime)
    (order_id product_id motivo_devolucion fecha_entrega : String)
    (estado_producto : String := "sellado") : Elegibilidad :=
  match pedidos.find? (fun p => p.tracking_number == some order_id) with
  | none =>
    { es_elegible := false
      razon := "Pedido " ++ order_id ++ " no encontrado"
      categoria_proceso := none
      pasos_siguientes := [] }
  | some pedido =>
    match pedido.productos.find?
        (fun p => pyLower (p.nombre.getD "") == pyLower product_id) with
    | none =>
      { es_elegible := false
        razon := "Producto \x27" ++ product_id ++ "\x27 no encontrado en el pedido "
          ++ order_id
        categoria_proceso := none
        pasos_siguientes := [] }
    | some producto =>
      let categoria := producto.categoria.getD ""
      let dev_aceptada := producto.dev_aceptada
      if categorias_no_retornables.contains categoria || !dev_aceptada then
        { es_elegible := false
          razon := "Los productos de categoría \x27" ++ categoria
            ++ "\x27 no aceptan devoluciones por política de seguridad"
          categoria_proceso := none
          pasos_siguientes := ["Contactar soporte para casos excepcionales"] }
      else
        match strptimeYmd fecha_entrega with
        | none =>
          { es_elegible := false
            razon := "Fecha de entrega inválida"
            categoria_proceso := none
            pasos_siguientes := [] }
        | some fecha_entrega_dt =>
          let dias : Int := diasTranscurridos now fecha_entrega_dt
          if dias > 30 then
            { es_elegible := false
              razon := "Han transcurrido " ++ toString dias
                ++ " días desde la entrega. El plazo máximo es de 30 días"
              categoria_proceso := none
              pasos_siguientes := [] }
          else if estados_no_elegibles.contains estado_producto then
            { es_elegible := false
              razon := "Producto en estado \x27" ++ estado_producto
                ++ "\x27 no es elegible para devolución"
              categoria_proceso := none
              pasos_siguientes := [] }
          else if estado_producto == "dañado_transporte" then
            { es_elegible := true
              razon := "Producto dentro de ventana de 30 días y estado \x27"
                ++ estado_producto ++ "\x27 aceptable"
              categoria_proceso := some "recoleccion_prioritaria"
              pasos_siguientes :=
                ["Un mensajero recogerá el producto en las próximas 24 horas",
                 "No necesitas empacar el producto",
                 "Recibirás reembolso completo en 3-5 días hábiles"]
              dias_restantes := some (30 - dias)
              motivo_registrado := some motivo_devolucion }
          else
            { es_elegible := true
              razon := "Producto dentro de ventana de 30 días y estado \x27"
                ++ estado_producto ++ "\x27 aceptable"
              categoria_proceso := some "recoleccion_domicilio"
              pasos_siguientes :=
                ["Imprimir etiqueta de devolución",
                 "Empacar el producto en su caja original",
                 "Entregar paquete al mensajero",
                 "Reembolso procesado al confirmar recepción (5-7 días hábiles)"]
              dias_restantes := some (30 - dias)
              motivo_registrado := some motivo_devolucion }

/-- Tool `generar_etiqueta_devolucion`; `now` is the instant read with
`datetime.now()` (the source reads the clock three times in immediate
succession; the claims do not depend on sub-call clock drift, so one
instant stands for all three reads). -/
def generar_etiqueta_devolucion (pedidos : List Pedido) (now : DateTime)
    (order_id product_id : String) (categoria_proceso : Option String)
    (direccion_cliente nombre_cliente motivo_devolucion : Option String := none) :
    Etiqueta :=
  match pedidos.find? (fun p => p.tracking_number == some order_id) with
  | none =>
    { error := some ("Pedido " ++ order_id ++ " no encontrado")
      rma_id := none }
  | some pedido =>
    let timestamp := strftime14 now
    let rma_id := "RMA-" ++ toString now.date.year ++ "-" ++ pySliceLast 6 timestamp
    let transportadora := pedido.transportadora.getD "EcoExpress"
    let nombre_cliente :=
      match truthy nombre_cliente with
      | some n => n
      | none => pedido.cliente.getD "Cliente EcoMarket"
    let direccion_cliente :=
      match truthy direccion_cliente with
      | some d => d
      | none => pedido.destino.getD "Dirección registrada"
    let prioritaria := categoria_proceso == some "recoleccion_prioritaria"
    let tipo_envio :=
      if prioritaria then "recoleccion_prioritaria" else "recoleccion_domicilio"
    let instrucciones :=
      if prioritaria then
        "Un mensajero de " ++ transportadora
          ++ " pasará en las próximas 24 horas. "
          ++ "Ten el producto disponible tal como lo recibiste. "
          ++ "El reembolso se procesará automáticamente."
      else
        "1. Descarga e imprime la etiqueta adjunta\n"
          ++ "2. Empaca el producto en su caja original con todos los accesorios\n"
          ++ "3. Pega la etiqueta en el exterior del paquete\n"
          ++ "4. Entrega el paquete al mensajero de " ++ transportadora ++ "\n"
          ++ "5. Recibirás confirmación por email y el reembolso en 5-7 días hábiles"
    let etiqueta_url := "https://ecomarket.dev/devoluciones/" ++ rma_id ++ ".pdf"
    { rma_id := some rma_id
      transportadora := some transportadora
      tipo_envio := some tipo_envio
      instrucciones_cliente := some instrucciones
      etiqueta_pdf_url := some etiqueta_url
      fecha_generacion := some (isoformat now)
      orden_original := some order_id
      producto := some product_id
      cliente := some nombre_cliente
      direccion_recoleccion := some direccion_cliente
      motivo := some (match truthy motivo_devolucion with
        | some m => m
        | none => "No especificado")
      estado_rma := some "Iniciado"
      tiempo_estimado_recoleccion :=
        some (if tipo_envio == "recoleccion_domicilio" then "24-48 horas" else "24 horas") }

/-! Slot extraction (`_extraer_datos_pedido` of `src/agent.py`). The
Python regexes are embedded by a small backtracking matcher whose
backtracking order follows `re`: alternatives left to right, greedy
quantifiers longest first, lazy quantifiers shortest first, search
positions left to right. -/

/-- Python `\s` (the ASCII whitespace characters). -/
def pySpace (c : Char) : Bool :=
  c = ' ' || c = '\t' || c = '\n' || c = '\r' || c = '\x0b' || c = '\x0c'

/-- Python `\w` over the alphabet this repository uses (ASCII alphanumerics,
underscore, Spanish accented letters). -/
def pyWordChar (c : Char) : Bool :=
  c.isAlphanum || c = '_'
    || ['á', 'é', 'í', 'ó', 'ú', 'ü', 'ñ', 'Á', 'É', 'Í', 'Ó', 'Ú', 'Ü', 'Ñ'].contains c

/-- Python `str.strip()` (whitespace trim on both ends). -/
def pyStrip (s : String) : String :=
  String.mk (((s.data.dropWhile pySpace).reverse.dropWhile pySpace).reverse)

/-- Length check `5 ≤ len ≤ 10` for a digit run (the `{5,10}` bound). -/
def lenOk (cur : List Char) : Bool := 5 ≤ cur.length && cur.length ≤ 10

/-- Scanner for `re.findall(r"\b(\d{5,10})\b", s)`: walks the characters
keeping whether the previous character was a word character and the
current digit run (reversed) when that run started at a word boundary. -/
def findOrderIdsGo : Bool → Option (List Char) → List Char → List String
  | _, curRun, [] =>
    (match curRun with
     | some cur => if lenOk cur then [String.mk cur.reverse] else []
     | none => [])
  | prevWord, curRun, c :: rest =>
    if c.isDigit then
      match curRun with
      | some cur => findOrderIdsGo true (some (c :: cur)) rest
      | none =>
        if prevWord then findOrderIdsGo true none rest
        else findOrderIdsGo true (some [c]) rest
    else
      (match curRun with
       | some cur => if !pyWordChar c && lenOk cur then [String.mk cur.reverse] else []
       | none => []) ++ findOrderIdsGo (pyWordChar c) none rest

/-- Python `re.findall(r"\b(\d{5,10})\b", s)` (`ORDER_ID_REGEX`): the
maximal digit runs flanked by word boundaries with length 5 to 10. -/
def findOrderIds (s : List Char) : List String := findOrderIdsGo false none s

/-- Syntax of the regex fragments the product patterns use. -/
inductive RE where
  | lit : String → RE
  | alt : RE → RE → RE
  | opt : RE → RE
  | cat : RE → RE → RE
  | plusG : (Char → Bool) → RE
  | eos : RE

/-- Case-insensitive character comparison (`re.IGNORECASE`). -/
def ciEq (c d : Char) : Bool := pyLowerChar c == pyLowerChar d

/-- Match a literal, returning the rest of the input. -/
def litMatch : List Char → List Char → Option (List Char)
  | [], s => some s
  | _ :: _, [] => none
  | c :: cs, d :: ds => if ciEq c d then litMatch cs ds else none

/-- Greedy `+` over a character class, in continuation style: longest
consumption is tried first, backing off one character at a time. -/
def greedyPlus {α : Type} (p : Char → Bool) (k : List Char → Option α) :
    List Char → Option α
  | [] => none
  | c :: rest =>
    if p c then
      match greedyPlus p k rest with
      | some r => some r
      | none => k rest
    else none

/-- Backtracking matcher in continuation style; `k` receives the input
remaining after the matched part. -/
def mtch {α : Type} : RE → List Char → (List Char → Option α) → Option α
  | .lit l, s, k =>
    match litMatch l.data s with
    | some rest => k rest
    | none => none
  | .alt a b, s, k =>
    match mtch a s k with
    | some r => some r
    | none => mtch b s k
  | .opt r, s, k =>
    match mtch r s k with
    | some res => some res
    | none => k s
  | .cat a b, s, k => mtch a s (fun s2 => mtch b s2 k)
  | .plusG p, s, k => greedyPlus p k s
  | .eos, s, k =>
    match s with
    | [] => k []
    | _ :: _ => none

/-- Lazy `+?` capture group over class `cls` followed by `suf`: shortest
captures are tried first; returns the captured characters. -/
def lazyCapture (cls : Char → Bool) (suf : RE) (acc : List Char) :
    List Char → Option (List Char)
  | [] => none
  | c :: rest =>
    if cls c then
      match mtch suf rest (fun _ => some (c :: acc).reverse) with
      | some cap => some cap
      | none => lazyCapture cls suf (c :: acc) rest
    else none

/-- Try a pattern `pre ⬝ (cls+?) ⬝ suf` at the current position, returning
group 1. -/
def tryPat (pre : RE) (cls : Char → Bool) (suf : RE) (s : List Char) :
    Option (List Char) :=
  mtch pre s (fun rest => lazyCapture cls suf [] rest)

/-- `re.search` over start positions, leftmost first. -/
def searchPat (pre : RE) (cls : Char → Bool) (suf : RE) :
    List Char → Option (List Char)
  | [] => tryPat pre cls suf []
  | c :: rest =>
    match tryPat pre cls suf (c :: rest) with
    | some r => some r
    | none => searchPat pre cls suf rest

/-- The class `[A-Za-zÁ-úñÑ\s]` as written. -/
def clsProducto0 (c : Char) : Bool :=
  (decide ('A' ≤ c) && decide (c ≤ 'Z')) || (decide ('a' ≤ c) && decide (c ≤ 'z'))
    || (decide ('Á' ≤ c) && decide (c ≤ 'ú')) || c = 'ñ' || c = 'Ñ' || pySpace c

/-- The class `[A-Za-zÁ-úñÑ\s]` under `re.IGNORECASE`. -/
def clsProducto (c : Char) : Bool := clsProducto0 c || clsProducto0 (pyLowerChar c)

/-- `(?:el |la |los |las )`. -/
def articuloRE : RE :=
  .alt (.lit "el ") (.alt (.lit "la ") (.alt (.lit "los ") (.lit "las ")))

/-- The suffix `(?:\s+del|\s+de|\s+pedido|\.|$)` shared by the product
patterns. -/
def sufijoProducto : RE :=
  .alt (.cat (.plusG pySpace) (.lit "del"))
    (.alt (.cat (.plusG pySpace) (.lit "de"))
      (.alt (.cat (.plusG pySpace) (.lit "pedido"))
        (.alt (.lit ".") .eos)))

/-- Pattern-loop step: `candidate = m.group(1).strip()`, kept only when
`len(candidate) > 3`; a failed or short match falls to the next pattern. -/
def candidato (r : Option (List Char)) : Option String :=
  match r with
  | some cap =>
    let cand := pyStrip (String.mk cap)
    if cand.length > 3 then some cand else none
  | none => none

/-- The product-extraction pattern loop of `_extraer_datos_pedido`:
pattern 1 `devolver (?:el |la |los |las )?(...)suf`, pattern 2
`producto (...)suf`, pattern 3 `(?:el |la |los |las )(...)suf`, pattern 4
`^(...)$` (anchored, hence tried only at position 0). -/
def extraerProducto (q : List Char) : Option String :=
  match candidato (searchPat (.cat (.lit "devolver ") (.opt articuloRE))
      clsProducto sufijoProducto q) with
  | some c => some c
  | none =>
  match candidato (searchPat (.lit "producto ") clsProducto sufijoProducto q) with
  | some c => some c
  | none =>
  match candidato (searchPat articuloRE clsProducto sufijoProducto q) with
  | some c => some c
  | none => candidato (tryPat (.lit "") clsProducto .eos q)

/-! Conversation orchestrator (`src/agent.py`). -/

/-- Intent labels. -/
def INTENT_INFORMATIVA : String := "informativa"

/-- Intent label of the transactional branch. -/
def INTENT_DEVOLUCION : String := "devolucion"

/-- `ACCIONES_EXPLICITAS` of `src/agent.py`. -/
def ACCIONES_EXPLICITAS : List String :=
  ["quiero devolver", "deseo devolver", "necesito devolver",
   "iniciar devolución", "empezar devolución", "comenzar devolución",
   "generar etiqueta", "crear etiqueta", "hacer devolución",
   "hacer una devolución", "solicitar devolución", "procesar devolución"]

/-- `PALABRAS_INTERROGATIVAS` of `src/agent.py`. -/
def PALABRAS_INTERROGATIVAS : List String :=
  ["cuánto", "cuanto", "cuántos", "cuantos", "cuándo", "cuando",
   "cómo", "como", "qué", "que", "cuál", "cual", "cuáles", "cuales",
   "dónde", "donde", "por qué", "porque", "para qué"]

/-- `PALABRAS_CONSULTA` of `src/agent.py`. -/
def PALABRAS_CONSULTA : List String :=
  ["política", "políticas", "plazo", "tiempo", "días",
   "requisito", "requisitos", "condición", "condiciones",
   "información", "info", "explica", "dime", "cuéntame",
   "comparte", "muestra"]

/-- `EcoMarketAgent._detectar_intencion`: rule order is the tie-break
policy (interrogatives, consultative words, modal possibility without
imperative, question mark, explicit action phrases, order-number shape,
default informational). -/
def detectar_intencion (query : String) : String :=
  let q := pyLower query
  if PALABRAS_INTERROGATIVAS.any (fun p => mentions p q) then INTENT_INFORMATIVA
  else if PALABRAS_CONSULTA.any (fun p => mentions p q) then INTENT_INFORMATIVA
  else if (mentions "puedo" q || mentions "se puede" q) && !mentions "quiero" q then
    INTENT_INFORMATIVA
  else if mentions "?" q then INTENT_INFORMATIVA
  else if ACCIONES_EXPLICITAS.any (fun a => mentions a q) then INTENT_DEVOLUCION
  else if !(findOrderIds q.data).isEmpty then INTENT_DEVOLUCION
  else INTENT_INFORMATIVA

/-- `self.conversation_context` (per-session slot memory). -/
structure Ctx where
  last_order_id : Option String := none
  last_product_id : Option String := none
  last_action : Option String := none
  deriving Repr, DecidableEq

/-- The pair returned by `_extraer_datos_pedido`. -/
structure Datos where
  order_id : Option String
  product_id : Option String
  deriving Repr, DecidableEq

/-- `EcoMarketAgent._extraer_datos_pedido`: order id from the first 5-10
digit token, falling back to context; product id from the pattern loop on
the stripped utterance (no context fallback exists for it in the source);
newly found truthy values are written back into the context. -/
def extraer_datos_pedido (ctx : Ctx) (query : String) : Datos × Ctx :=
  let numeros := findOrderIds query.data
  let order_id : Option String :=
    match numeros with
    | n :: _ => some n
    | [] => truthy ctx.last_order_id
  let product_id : Option String := extraerProducto (pyStrip query).data
  let ctx' : Ctx :=
    { last_order_id :=
        match truthy order_id with
        | some _ => order_id
        | none => ctx.last_order_id
      last_product_id :=
        match truthy product_id with
        | some _ => product_id
        | none => ctx.last_product_id
      last_action := ctx.last_action }
  ({ order_id := order_id, product_id := product_id }, ctx')

deriving instance DecidableEq for Except

/-- Trace of tool invocations made during one run, with the argument
values and the outcome of each call. -/
inductive Event where
  | consultar (order_id : String) (product_id : Option String)
      (result : Except String EstadoResult)
  | verificar (order_id product_id motivo : String) (fecha : Option String)
      (estado_producto : String) (result : Except String Elegibilidad)
  | generar (order_id product_id : String) (categoria motivo : Option String)
      (result : Except String Etiqueta)
  deriving Repr, DecidableEq

/-- Response dict built by `EcoMarketAgent._resp` (`intermediate_steps`,
the list of raw tool dicts, is carried by the event trace returned next
to the response). -/
structure Resp where
  success : Bool
  response : String
  used_tools : List String := []
  deriving Repr, DecidableEq

/-- The agent's callable collaborators: each tool call either returns its
dict or raises (`Except.error e` models a raised exception with message
`e`); `informativa` is the opaque RAG answer path of
`_responder_informativa`. -/
structure Env where
  consultar : String → Option String → Except String EstadoResult
  verificar : String → String → String → Option String → String →
    Except String Elegibilidad
  generar : String → String → Option String → Option String →
    Except String Etiqueta
  informativa : String → String

/-- The environment in which every tool call runs the real tool over the
order database `pedidos` at instant `now`, and no call raises. -/
def realEnv (pedidos : List Pedido) (now : DateTime) (answer : String → String) :
    Env where
  consultar := fun oid pid => .ok (consultar_estado_pedido pedidos oid pid)
  verificar := fun oid pid motivo fecha est =>
    match fecha with
    | some f => .ok (verificar_elegibilidad_producto pedidos now oid pid motivo f est)
    | none => .error "TypeError: strptime() argument 1 must be str, not None"
  generar := fun oid pid cat motivo =>
    .ok (generar_etiqueta_devolucion pedidos now oid pid cat none none motivo)
  informativa := answer

/-- `"\n".join(f"  • {p}" for p in productos)`. -/
def listaProductos (productos : List (Option String)) : String :=
  String.intercalate "\n" (productos.map (fun p => "  • " ++ pyStr p))

/-- The success message `final_msg` of `_flujo_devolucion` (the source
triple-quoted string keeps 12 leading spaces on its continuation lines). -/
def finalMsg (product_id : String) (etiqueta : Etiqueta) : String :=
  "✅ **¡Devolución Aprobada!**\n\n"
    ++ "            📋 **Número de caso:** " ++ pyStr etiqueta.rma_id ++ "\n"
    ++ "            📦 **Producto:** " ++ product_id ++ "\n"
    ++ "            🚚 **Transportadora:** " ++ pyStr etiqueta.transportadora ++ "\n"
    ++ "            ⏱️ **Tiempo estimado de recolección:** "
    ++ pyStr etiqueta.tiempo_estimado_recoleccion ++ "\n\n"
    ++ "            📝 **Instrucciones:**\n"
    ++ "            " ++ pyStr etiqueta.instrucciones_cliente ++ "\n\n"
    ++ "            🔗 **Etiqueta de devolución:**\n"
    ++ "            " ++ pyStr etiqueta.etiqueta_pdf_url ++ "\n\n"
    ++ "            💰 Recibirás tu reembolso en 5-7 días hábiles después de que recibamos el producto.\n\n"
    ++ "            ¿Necesitas ayuda con algo más?"

/-- `EcoMarketAgent._flujo_devolucion`. The reads
`estado.get('fecha_estimada', 'No disponible')` always produce the default
literal because `consultar_estado_pedido` returns no such key; the
embedding therefore carries the literal. Both `try` blocks of the source
surface a raised exception as a `success := false` response. -/
def flujo_devolucion (env : Env) (order_id product_id : Option String) :
    Resp × List Event :=
  match truthy order_id with
  | none =>
    ({ success := true
       response := "Para procesar la devolución necesito el **número de pedido**.\n\n"
         ++ "Ejemplo: \"Quiero devolver el Perfume floral del pedido 20002\"\n\n"
         ++ "¿Cuál es tu número de pedido?" }, [])
  | some oid =>
    match truthy product_id with
    | none =>
      (match env.consultar oid none with
       | .error e =>
         ({ success := false, response := "Error consultando pedido: " ++ e },
          [.consultar oid none (.error e)])
       | .ok estado =>
         if !estado.existe then
           ({ success := true
              response := "No encontré el pedido " ++ oid
                ++ ". Por favor verifica el número." },
            [.consultar oid none (.ok estado)])
         else
           ({ success := true
              response := "Encontré el pedido " ++ oid
                ++ ". ¿Cuál producto deseas devolver?\n\n"
                ++ "Productos en este pedido:\n"
                ++ listaProductos (estado.productos.getD []) ++ "\n\n"
                ++ "Por favor especifica el nombre del producto."
              used_tools := ["consultar_estado_pedido"] },
            [.consultar oid none (.ok estado)]))
    | some pid =>
      match env.consultar oid (some pid) with
      | .error e =>
        ({ success := false, response := "❌ Error procesando la solicitud: " ++ e },
         [.consultar oid (some pid) (.error e)])
      | .ok estado =>
        if !estado.existe then
          ({ success := true
             response := "❌ No encontré el pedido " ++ oid ++ " en nuestros registros."
             used_tools := ["consultar_estado_pedido"] },
           [.consultar oid (some pid) (.ok estado)])
        else if !(estado.producto_existe.getD false) then
          ({ success := true
             response := "❌ El producto \"" ++ pid ++ "\" no está en el pedido "
               ++ oid ++ ".\n\n"
               ++ "            Productos disponibles:\n"
               ++ "            " ++ listaProductos (estado.productos.getD []) ++ "\n\n"
               ++ "            ¿Cuál deseas devolver?"
             used_tools := ["consultar_estado_pedido"] },
           [.consultar oid (some pid) (.ok estado)])
        else if !estado.fue_entregado then
          ({ success := true
             response := "⏳ El pedido " ++ oid ++ " está en estado: **"
               ++ pyStr estado.estado_actual ++ "**\n\n"
               ++ "                    Para iniciar una devolución, el pedido debe estar entregado primero.\n\n"
               ++ "                    📅 Fecha estimada de entrega: No disponible\n\n"
               ++ "                    Una vez lo recibas, podrás solicitar la devolución dentro de los 30 días siguientes."
             used_tools := ["consultar_estado_pedido"] },
           [.consultar oid (some pid) (.ok estado)])
        else
          match env.verificar oid pid "Solicitud del cliente" estado.fecha_entrega "sellado" with
          | .error e =>
            ({ success := false, response := "❌ Error procesando la solicitud: " ++ e },
             [.consultar oid (some pid) (.ok estado),
              .verificar oid pid "Solicitud del cliente" estado.fecha_entrega "sellado" (.error e)])
          | .ok elegibilidad =>
            if !elegibilidad.es_elegible then
              ({ success := true
                 response := "❌ **Devolución No Permitida**\n\n"
                   ++ "            " ++ elegibilidad.razon ++ "\n\n"
                   ++ "            "
                   ++ (if elegibilidad.pasos_siguientes.isEmpty then ""
                       else String.intercalate "\n"
                         (elegibilidad.pasos_siguientes.map (fun p => "• " ++ p)))
                 used_tools := ["consultar_estado_pedido", "verificar_elegibilidad_producto"] },
               [.consultar oid (some pid) (.ok estado),
                .verificar oid pid "Solicitud del cliente" estado.fecha_entrega "sellado" (.ok elegibilidad)])
            else
              match env.generar oid pid elegibilidad.categoria_proceso (some "Solicitud del cliente") with
              | .error e =>
                ({ success := false, response := "❌ Error procesando la solicitud: " ++ e },
                 [.consultar oid (some pid) (.ok estado),
                  .verificar oid pid "Solicitud del cliente" estado.fecha_entrega "sellado" (.ok elegibilidad),
                  .generar oid pid elegibilidad.categoria_proceso (some "Solicitud del cliente") (.error e)])
              | .ok etiqueta =>
                ({ success := true
                   response := finalMsg pid etiqueta
                   used_tools := ["consultar_estado_pedido",
                     "verificar_elegibilidad_producto", "generar_etiqueta_devolucion"] },
                 [.consultar oid (some pid) (.ok estado),
                  .verificar oid pid "Solicitud del cliente" estado.fecha_entrega "sellado" (.ok elegibilidad),
                  .generar oid pid elegibilidad.categoria_proceso (some "Solicitud del cliente") (.ok etiqueta)])

/-- `EcoMarketAgent.run`: classify intent; informational turns delegate to
the knowledge path and leave the context untouched; transactional turns
extract slots (updating the context) and run the return flow. Returns the
response, the updated context and the tool trace. -/
def run (env : Env) (ctx : Ctx) (query : String) : Resp × Ctx × List Event :=
  let intencion := detectar_intencion query
  if intencion == INTENT_INFORMATIVA then
    ({ success := true, response := env.informativa query }, ctx, [])
  else
    let datos := (extraer_datos_pedido ctx query).1
    let ctx2 := (extraer_datos_pedido ctx query).2
    ((flujo_devolucion env datos.order_id datos.product_id).1, ctx2,
      (flujo_devolucion env datos.order_id datos.product_id).2)

/-! Concrete fixtures used by witnesses and counterexamples: a small order
database in the shape of `data/pedidos.json` (schema per
`src/ingest_data.py` and the values exercised by `test_agent.py`). -/

/-- A returnable cosmetics item. -/
def productoPerfume : Producto :=
  { nombre := some "Perfume floral", categoria := some "Belleza", dev_aceptada := true }

/-- A returnable household item. -/
def productoCubiertos : Producto :=
  { nombre := some "Juego de cubiertos", categoria := some "Hogar", dev_aceptada := true }

/-- A hygiene item (category excluded by rule 1). -/
def productoJabon : Producto :=
  { nombre := some "Jabón artesanal", categoria := some "Higiene", dev_aceptada := true }

/-- A delivered order. -/
def pedido20002 : Pedido :=
  { tracking_number := some "20002", estado := some "Entregado",
    transportadora := some "EcoExpress", destino := some "Medellín, Colombia",
    cliente := some "Laura Gómez", fecha_entrega_real := some "2026-01-01",
    fecha_estimada := some "2025-12-30",
    productos := [productoPerfume, productoCubiertos, productoJabon] }

/-- An order still in transit, with an estimated delivery date on record. -/
def pedido20003 : Pedido :=
  { tracking_number := some "20003", estado := some "En tránsito",
    transportadora := some "DHL", destino := some "Bogotá, Colombia",
    cliente := some "Carlos Ruiz", fecha_estimada := some "2026-02-15",
    productos := [productoCubiertos] }

/-- The fixture database. -/
def pedidosDB : List Pedido := [pedido20002, pedido20003]

/-- An instant 10 whole days after the delivery date of `pedido20002`. -/
def now0 : DateTime := ⟨⟨2026, 1, 11⟩, 12, 0, 0⟩

/-- An instant 35 whole days after the delivery date of `pedido20002`. -/
def now35 : DateTime := ⟨⟨2026, 2, 5⟩, 9, 30, 0⟩

/-- An opaque knowledge answer (its content is irrelevant to the claims). -/
def nullAnswer : String → String := fun _ => ""

/-- An environment in which every external call raises. -/
def envErr : Env :=
  { consultar := fun _ _ => .error "ReadTimeout: order directory timed out"
    verificar := fun _ _ _ _ _ => .error "ReadTimeout: order directory timed out"
    generar := fun _ _ _ _ => .error "ReadTimeout: order directory timed out"
    informativa := fun _ => "" }

/-! Claim theorems. -/

/-- C1: the claim demands that `generar_etiqueta_devolucion` never return
two equal RMA identifiers across invocations; the code derives the
identifier from the wall clock alone (`RMA-<year>-<last 6 of
YYYYMMDDHHMMSS>`, i.e. `RMA-<year>-<HHMMSS>`), so two issuances at
distinct instants that share the wall-clock time of day — here
2026-10-12 10:00:00 and 2026-10-13 10:00:00 — both return
`RMA-2026-100000`. This contradicts the generator's stated purpose
(source comment `Generar RMA único`). -/
theorem claim_C1 :
    (generar_etiqueta_devolucion [pedido20002] ⟨⟨2026, 10, 12⟩, 10, 0, 0⟩ "20002"
        "Perfume floral" (some "recoleccion_domicilio")).rma_id = some "RMA-2026-100000"
    ∧ (generar_etiqueta_devolucion [pedido20002] ⟨⟨2026, 10, 13⟩, 10, 0, 0⟩ "20002"
        "Perfume floral" (some "recoleccion_domicilio")).rma_id = some "RMA-2026-100000"
    ∧ (⟨⟨2026, 10, 12⟩, 10, 0, 0⟩ : DateTime) ≠ ⟨⟨2026, 10, 13⟩, 10, 0, 0⟩ := by
  refine ⟨?_, ?_, ?_⟩ <;> decide

/-- C6: for an order that exists, whose named item exists, and whose
status is not `Entregado`, the orchestrator reports the pending status and
never invokes the eligibility engine or the label issuer — but the reply
always shows `No disponible` in place of the order's estimated delivery
date (here on record as `2026-02-15`), because
`consultar_estado_pedido` returns no `fecha_estimada` key while
`_flujo_devolucion` reads `estado.get('fecha_estimada', 'No disponible')`. -/
theorem claim_C6 :
    pedido20003.fecha_estimada = some "2026-02-15"
    ∧ mentions "está en estado: **En tránsito**"
        (flujo_devolucion (realEnv [pedido20003] now0 nullAnswer)
          (some "20003") (some "Juego de cubiertos")).1.response = true
    ∧ mentions "Fecha estimada de entrega: No disponible"
        (flujo_devolucion (realEnv [pedido20003] now0 nullAnswer)
          (some "20003") (some "Juego de cubiertos")).1.response = true
    ∧ mentions "2026-02-15"
        (flujo_devolucion (realEnv [pedido20003] now0 nullAnswer)
          (some "20003") (some "Juego de cubiertos")).1.response = false
    ∧ (flujo_devolucion (realEnv [pedido20003] now0 nullAnswer)
        (some "20003") (some "Juego de cubiertos")).1.used_tools
      = ["consultar_estado_pedido"]
    ∧ (flujo_devolucion (realEnv [pedido20003] now0 nullAnswer)
        (some "20003") (some "Juego de cubiertos")).2
      = [Event.consultar "20003" (some "Juego de cubiertos")
          (.ok (consultar_estado_pedido [pedido20003] "20003" (some "Juego de cubiertos")))] := by
  refine ⟨?_, ?_, ?_, ?_, ?_, ?_⟩ <;> decide

/-- C7 as stated is false on the code: on a fresh session, the utterance
`quiero devolver mi pedido` does not leave the product slot empty — the
catch-all fourth pattern `^([A-Za-zÁ-úñÑ\s]+?)$` matches the whole
utterance and its trimmed length 25 exceeds the actual threshold 3 (the
source tests `len(candidate) > 3`, not `> 4`), so the slot extractor
returns the entire utterance as the product id. -/
theorem counterexample_C7 :
    ((extraer_datos_pedido {} "quiero devolver mi pedido").1).product_id
      = some "quiero devolver mi pedido" := by decide

/-- C7 amended: on a fresh session, the utterance `quiero devolver mi
pedido` is classified transactional, the order slot comes back empty and
the reply asks for the order number (the session still lacks an order id);
but the product slot is filled with the whole utterance (threshold
`len > 3`), which is also written into the session slot memory. -/
theorem claim_C7 :
    (extraer_datos_pedido {} "quiero devolver mi pedido").1.order_id = none
    ∧ (extraer_datos_pedido {} "quiero devolver mi pedido").1.product_id
      = some "quiero devolver mi pedido"
    ∧ detectar_intencion "quiero devolver mi pedido" = INTENT_DEVOLUCION
    ∧ (run (realEnv pedidosDB now0 nullAnswer) {} "quiero devolver mi pedido").1.response
      = "Para procesar la devolución necesito el **número de pedido**.\n\n"
        ++ "Ejemplo: \"Quiero devolver el Perfume floral del pedido 20002\"\n\n"
        ++ "¿Cuál es tu número de pedido?"
    ∧ (run (realEnv pedidosDB now0 nullAnswer) {} "quiero devolver mi pedido").2.1.last_order_id
      = none
    ∧ (run (realEnv pedidosDB now0 nullAnswer) {} "quiero devolver mi pedido").2.1.last_product_id
      = some "quiero devolver mi pedido" := by
  refine ⟨?_, ?_, ?_, ?_, ?_, ?_⟩ <;> decide

/-- C2 as stated is false on the code: rule 1 (category exclusion) runs
before rule 2 (time window), so for a `Higiene` item delivered 35 whole
days ago the verdict is ineligible but the reason cites the category
policy and names neither the elapsed day count nor the 30-day limit. -/
theorem counterexample_C2 :
    diasTranscurridos now35 ⟨2026, 1, 1⟩ = 35
    ∧ strptimeYmd "2026-01-01" = some ⟨2026, 1, 1⟩
    ∧ (verificar_elegibilidad_producto [pedido20002] now35 "20002" "Jabón artesanal"
        "No me gustó" "2026-01-01" "sellado").es_elegible = false
    ∧ (verificar_elegibilidad_producto [pedido20002] now35 "20002" "Jabón artesanal"
        "No me gustó" "2026-01-01" "sellado").razon
      = "Los productos de categoría \x27Higiene\x27 no aceptan devoluciones por política de seguridad"
    ∧ mentions "35" (verificar_elegibilidad_producto [pedido20002] now35 "20002"
        "Jabón artesanal" "No me gustó" "2026-01-01" "sellado").razon = false := by
  refine ⟨?_, ?_, ?_, ?_, ?_⟩ <;> decide

/-- C2 amended: whenever the delivery date parses and more than 30 whole
days have elapsed, the verdict is ineligible; and when additionally the
order and product are found and rule 1 passes (returnable category and
return accepted), the reason is exactly the sentence naming the elapsed
day count and the 30-day limit. -/
theorem claim_C2 (pedidos : List Pedido) (now : DateTime)
    (order_id product_id motivo fecha estado_producto : String) (d : Date)
    (hparse : strptimeYmd fecha = some d)
    (hdias : 30 < diasTranscurridos now d) :
    (verificar_elegibilidad_producto pedidos now order_id product_id motivo fecha
        estado_producto).es_elegible = false
    ∧ ∀ p pr,
        pedidos.find? (fun q => q.tracking_number == some order_id) = some p →
        p.productos.find? (fun q => pyLower (q.nombre.getD "") == pyLower product_id)
          = some pr →
        (categorias_no_retornables.contains (pr.categoria.getD "") || !pr.dev_aceptada)
          = false →
        (verificar_elegibilidad_producto pedidos now order_id product_id motivo fecha
            estado_producto).razon
          = "Han transcurrido " ++ toString (diasTranscurridos now d)
            ++ " días desde la entrega. El plazo máximo es de 30 días" := by
  constructor
  · unfold verificar_elegibilidad_producto
    rcases h1 : pedidos.find? (fun p => p.tracking_number == some order_id) with _ | pedido
    · simp [h1]
    · simp only [h1]
      rcases h2 : pedido.productos.find?
          (fun p => pyLower (p.nombre.getD "") == pyLower product_id) with _ | producto
      · simp [h2]
      · simp only [h2, hparse]
        by_cases hcat : producto.categoria.getD "" ∈ categorias_no_retornables
            ∨ producto.dev_aceptada = false
        · simp [hcat]
        · simp [hcat, gt_iff_lt, hdias]
  · intro p pr hp hpr hcat
    unfold verificar_elegibilidad_producto
    simp only [hp, hpr, hparse, hcat, Bool.false_eq_true, if_false, gt_iff_lt, hdias, if_true]

/-- Witness for C2: `Perfume floral` of the delivered order 20002
(returnable category) evaluated 35 whole days after delivery. -/
theorem witness_C2 :
    (verificar_elegibilidad_producto [pedido20002] now35 "20002" "Perfume floral"
        "No me gustó" "2026-01-01" "sellado").es_elegible = false
    ∧ (verificar_elegibilidad_producto [pedido20002] now35 "20002" "Perfume floral"
        "No me gustó" "2026-01-01" "sellado").razon
      = "Han transcurrido 35 días desde la entrega. El plazo máximo es de 30 días" := by
  have h := claim_C2 [pedido20002] now35 "20002" "Perfume floral" "No me gustó"
    "2026-01-01" "sellado" ⟨2026, 1, 1⟩ (by decide) (by decide)
  refine ⟨h.1, ?_⟩
  have h2 := h.2 pedido20002 productoPerfume (by decide) (by decide) (by decide)
  rw [h2]
  decide

/-- C4 as stated is false on the code: `verificar_elegibilidad_producto`
takes no `now` argument in the source — it reads `datetime.now()`
internally — so two calls with identical arguments (same order id,
product id, reason, delivery date, condition) made at different clock
instants can return different verdicts: here, eligible 30 days after
delivery, ineligible 31 days after. -/
theorem counterexample_C4 :
    verificar_elegibilidad_producto [pedido20002] ⟨⟨2026, 1, 31⟩, 23, 0, 0⟩ "20002"
        "Perfume floral" "No me gustó" "2026-01-01" "sellado"
    ≠ verificar_elegibilidad_producto [pedido20002] ⟨⟨2026, 2, 1⟩, 0, 30, 0⟩ "20002"
        "Perfume floral" "No me gustó" "2026-01-01" "sellado" := by decide

/-- C4 amended: the eligibility evaluation is deterministic given the
loaded order data and the internally read clock, and it depends on that
clock only through the calendar date: two calls with identical arguments
whose internal `datetime.now()` reads fall on the same date return
identical verdicts (time of day is irrelevant). It performs no I/O other
than loading the order file and no randomness. -/
theorem claim_C4 (pedidos : List Pedido) (now1 now2 : DateTime)
    (order_id product_id motivo fecha estado_producto : String)
    (h : now1.date = now2.date) :
    verificar_elegibilidad_producto pedidos now1 order_id product_id motivo fecha
      estado_producto
    = verificar_elegibilidad_producto pedidos now2 order_id product_id motivo fecha
      estado_producto := by
  unfold verificar_elegibilidad_producto diasTranscurridos
  rw [h]

/-- Witness for C4: morning and evening of the same day give the same
verdict. -/
theorem witness_C4 :
    verificar_elegibilidad_producto [pedido20002] ⟨⟨2026, 1, 11⟩, 8, 0, 0⟩ "20002"
        "Perfume floral" "No me gustó" "2026-01-01" "sellado"
    = verificar_elegibilidad_producto [pedido20002] ⟨⟨2026, 1, 11⟩, 20, 30, 5⟩ "20002"
        "Perfume floral" "No me gustó" "2026-01-01" "sellado" :=
  claim_C4 [pedido20002] ⟨⟨2026, 1, 11⟩, 8, 0, 0⟩ ⟨⟨2026, 1, 11⟩, 20, 30, 5⟩
    "20002" "Perfume floral" "No me gustó" "2026-01-01" "sellado" rfl

/-- C5 as stated is false on the code: when a product id was also
extracted, the not-found turn records the order lookup in `used_tools`
(`["consultar_estado_pedido"]`), not zero operations — order `99999` with
product `Perfume floral` replies not-found yet counts one internal
operation. -/
theorem counterexample_C5 :
    mentions "No encontré el pedido 99999"
      (flujo_devolucion (realEnv pedidosDB now0 nullAnswer)
        (some "99999") (some "Perfume floral")).1.response = true
    ∧ (flujo_devolucion (realEnv pedidosDB now0 nullAnswer)
        (some "99999") (some "Perfume floral")).1.used_tools
      = ["consultar_estado_pedido"] := by
  refine ⟨?_, ?_⟩ <;> decide

/-- C5 amended: whenever the order directory lookup does not find the
order, the orchestrator replies that the order was not found; the
response records zero internal operations when no product id was
extracted, and records the single order lookup (`consultar_estado_pedido`)
when a product id was present. -/
theorem claim_C5 (pedidos : List Pedido) (now : DateTime) (ans : String → String)
    (oid pid : String) (hoid : oid ≠ "") (hpid : pid ≠ "")
    (h : pedidos.find? (fun p => p.tracking_number == some oid) = none) :
    ((flujo_devolucion (realEnv pedidos now ans) (some oid) (some pid)).1.response
        = "❌ No encontré el pedido " ++ oid ++ " en nuestros registros."
      ∧ (flujo_devolucion (realEnv pedidos now ans) (some oid) (some pid)).1.used_tools
        = ["consultar_estado_pedido"])
    ∧ ((flujo_devolucion (realEnv pedidos now ans) (some oid) none).1.response
        = "No encontré el pedido " ++ oid ++ ". Por favor verifica el número."
      ∧ (flujo_devolucion (realEnv pedidos now ans) (some oid) none).1.used_tools = []) := by
  unfold flujo_devolucion realEnv consultar_estado_pedido
  simp [truthy, hoid, hpid, h]

/-- Witness for C5: order `99999` is absent from the fixture database. -/
theorem witness_C5 :
    ((flujo_devolucion (realEnv pedidosDB now0 nullAnswer)
        (some "99999") (some "Perfume floral")).1.response
        = "❌ No encontré el pedido " ++ "99999" ++ " en nuestros registros."
      ∧ (flujo_devolucion (realEnv pedidosDB now0 nullAnswer)
          (some "99999") (some "Perfume floral")).1.used_tools
        = ["consultar_estado_pedido"])
    ∧ ((flujo_devolucion (realEnv pedidosDB now0 nullAnswer)
          (some "99999") none).1.response
        = "No encontré el pedido " ++ "99999" ++ ". Por favor verifica el número."
      ∧ (flujo_devolucion (realEnv pedidosDB now0 nullAnswer)
          (some "99999") none).1.used_tools = []) :=
  claim_C5 pedidosDB now0 nullAnswer "99999" "Perfume floral"
    (by decide) (by decide) (by decide)

/-- C9 as stated is false on the code: the raised error is caught and the
turn returns a `success = false` response, but the conversation state is
not left unchanged — slot extraction runs before the external calls, so
the failed turn overwrites `last_order_id` (here `11111` becomes `22222`)
and `last_product_id` with values taken from the failing utterance. -/
theorem counterexample_C9 :
    (run envErr ⟨some "11111", some "Taza de cerámica", none⟩
      "quiero devolver el Perfume floral del pedido 22222").1.success = false
    ∧ (run envErr ⟨some "11111", some "Taza de cerámica", none⟩
        "quiero devolver el Perfume floral del pedido 22222").2.1.last_order_id
      = some "22222"
    ∧ (run envErr ⟨some "11111", some "Taza de cerámica", none⟩
        "quiero devolver el Perfume floral del pedido 22222").2.1.last_product_id
      = some "Perfume floral" := by
  refine ⟨?_, ?_, ?_⟩ <;> decide

/-- C9 amended: an error raised by any of the three external calls (order
lookup, eligibility, label issuance) is caught at the orchestrator
boundary and returned as a normal `success = false` response instead of
propagating; the session state after any turn is exactly the state left
by slot extraction (the informational branch leaves it untouched), so a
failing external call changes no state beyond what extraction already
wrote from the turn's own utterance. -/
theorem claim_C9 (env : Env) (ctx : Ctx) (query : String) (o p e : String)
    (ho : o ≠ "") (hp : p ≠ "") :
    (env.consultar o (some p) = .error e →
      (flujo_devolucion env (some o) (some p)).1
        = { success := false, response := "❌ Error procesando la solicitud: " ++ e })
    ∧ (∀ est, env.consultar o (some p) = .ok est → est.existe = true →
        est.producto_existe.getD false = true → est.fue_entregado = true →
        env.verificar o p "Solicitud del cliente" est.fecha_entrega "sellado" = .error e →
        (flujo_devolucion env (some o) (some p)).1
          = { success := false, response := "❌ Error procesando la solicitud: " ++ e })
    ∧ (∀ est eleg, env.consultar o (some p) = .ok est → est.existe = true →
        est.producto_existe.getD false = true → est.fue_entregado = true →
        env.verificar o p "Solicitud del cliente" est.fecha_entrega "sellado" = .ok eleg →
        eleg.es_elegible = true →
        env.generar o p eleg.categoria_proceso (some "Solicitud del cliente") = .error e →
        (flujo_devolucion env (some o) (some p)).1
          = { success := false, response := "❌ Error procesando la solicitud: " ++ e })
    ∧ (run env ctx query).2.1
      = (if detectar_intencion query == INTENT_INFORMATIVA then ctx
         else (extraer_datos_pedido ctx query).2) := by
  refine ⟨?_, ?_, ?_, ?_⟩
  · intro hc
    unfold flujo_devolucion
    simp [truthy, ho, hp, hc]
  · intro est hc h1 h2 h3 hv
    unfold flujo_devolucion
    simp [truthy, ho, hp, hc, h1, h2, h3, hv]
  · intro est eleg hc h1 h2 h3 hv he hg
    unfold flujo_devolucion
    simp [truthy, ho, hp, hc, h1, h2, h3, hv, he, hg]
  · by_cases hI : (detectar_intencion query == INTENT_INFORMATIVA) = true
    · simp [run, hI]
    · simp [run, hI]

/-- Witness for C9: a raising order lookup yields the caught-error
response, and the post-turn state equals the post-extraction state. -/
theorem witness_C9 :
    (flujo_devolucion envErr (some "22222") (some "Perfume floral")).1
      = { success := false,
          response := "❌ Error procesando la solicitud: ReadTimeout: order directory timed out" }
    ∧ (run envErr ⟨some "11111", some "Taza de cerámica", none⟩
        "quiero devolver el Perfume floral del pedido 22222").2.1
      = (extraer_datos_pedido ⟨some "11111", some "Taza de cerámica", none⟩
          "quiero devolver el Perfume floral del pedido 22222").2 := by
  have h := claim_C9 envErr ⟨some "11111", some "Taza de cerámica", none⟩
    "quiero devolver el Perfume floral del pedido 22222" "22222" "Perfume floral"
    "ReadTimeout: order directory timed out" (by decide) (by decide)
  exact ⟨h.1 rfl, h.2.2.2.trans (by decide)⟩

/-- Auxiliary: a truthy optional string is a non-empty `some`. -/
theorem truthy_eq_some {o : Option String} {v : String} (h : truthy o = some v) :
    o = some v ∧ v ≠ "" := by
  rcases o with _ | s
  · simp [truthy] at h
  · by_cases hs : s = ""
    · simp [truthy, hs] at h
    · simp only [truthy] at h
      rw [if_neg hs] at h
      injection h with h
      subst h
      exact ⟨rfl, hs⟩

/-- Auxiliary: the slot-memory write `if value: ctx[slot] = value` either
leaves the slot unchanged or leaves it truthy. -/
theorem slotUpdate_cases (old newv : Option String) :
    (match truthy newv with | some _ => newv | none => old) = old
    ∨ truthy (match truthy newv with | some _ => newv | none => old) ≠ none := by
  rcases hn : truthy newv with _ | v
  · left; rfl
  · right; simp [hn]

/-- C10 as stated is partly false on the code: the retention half holds,
but a set `last_product_id` is never read back — a later turn that names
no product behaves exactly as if the slot were empty (the orchestrator
asks which product to return instead of reusing the remembered one);
only `last_order_id` is reused. -/
theorem counterexample_C10 :
    (extraer_datos_pedido ⟨none, some "Perfume floral", none⟩
      "quiero devolver mi pedido 20003").1.product_id = none
    ∧ (run (realEnv pedidosDB now0 nullAnswer) ⟨none, some "Perfume floral", none⟩
        "quiero devolver mi pedido 20003").1
      = (run (realEnv pedidosDB now0 nullAnswer) ⟨none, none, none⟩
          "quiero devolver mi pedido 20003").1
    ∧ mentions "¿Cuál producto deseas devolver?"
        (run (realEnv pedidosDB now0 nullAnswer) ⟨none, some "Perfume floral", none⟩
          "quiero devolver mi pedido 20003").1.response = true := by
  refine ⟨?_, ?_, ?_⟩ <;> decide

/-- C10 amended: every turn either overwrites a slot with a newly
extracted truthy value or leaves it unchanged, so a truthy slot stays
truthy for the session's lifetime (never cleared); the order slot is
silently reused when the utterance carries no order-number token, but the
product slot, though retained, is never read back by extraction. -/
theorem claim_C10 (env : Env) (ctx : Ctx) (query : String) :
    (truthy ctx.last_order_id ≠ none →
      truthy (run env ctx query).2.1.last_order_id ≠ none)
    ∧ (truthy ctx.last_product_id ≠ none →
      truthy (run env ctx query).2.1.last_product_id ≠ none)
    ∧ ((run env ctx query).2.1.last_order_id = ctx.last_order_id
       ∨ truthy (run env ctx query).2.1.last_order_id ≠ none)
    ∧ ((run env ctx query).2.1.last_product_id = ctx.last_product_id
       ∨ truthy (run env ctx query).2.1.last_product_id ≠ none)
    ∧ (findOrderIds query.data = [] →
        (extraer_datos_pedido ctx query).1.order_id = truthy ctx.last_order_id)
    ∧ (∀ ctx2 : Ctx, (extraer_datos_pedido ctx query).1.product_id
        = (extraer_datos_pedido ctx2 query).1.product_id) := by
  have hcase1 : (extraer_datos_pedido ctx query).2.last_order_id = ctx.last_order_id
      ∨ truthy ((extraer_datos_pedido ctx query).2.last_order_id) ≠ none :=
    slotUpdate_cases ctx.last_order_id
      (match findOrderIds query.data with
       | n :: _ => some n
       | [] => truthy ctx.last_order_id)
  have hcase2 : (extraer_datos_pedido ctx query).2.last_product_id = ctx.last_product_id
      ∨ truthy ((extraer_datos_pedido ctx query).2.last_product_id) ≠ none :=
    slotUpdate_cases ctx.last_product_id (extraerProducto (pyStrip query).data)
  have mono : ∀ old u : Option String, (u = old ∨ truthy u ≠ none) →
      truthy old ≠ none → truthy u ≠ none := by
    rintro old u (rfl | h) ho
    · exact ho
    · exact h
  have hreuse : findOrderIds query.data = [] →
      (extraer_datos_pedido ctx query).1.order_id = truthy ctx.last_order_id := by
    intro h
    simp [extraer_datos_pedido, h]
  have hnoprod : ∀ ctx2 : Ctx, (extraer_datos_pedido ctx query).1.product_id
      = (extraer_datos_pedido ctx2 query).1.product_id := fun _ => rfl
  by_cases hI : (detectar_intencion query == INTENT_INFORMATIVA) = true
  · have hr : (run env ctx query).2.1 = ctx := by simp [run, hI]
    rw [hr]
    exact ⟨fun h => h, fun h => h, Or.inl rfl, Or.inl rfl, hreuse, hnoprod⟩
  · have hr : (run env ctx query).2.1 = (extraer_datos_pedido ctx query).2 := by
      simp [run, hI]
    rw [hr]
    exact ⟨mono _ _ hcase1, mono _ _ hcase2, hcase1, hcase2, hreuse, hnoprod⟩

/-- Witness for C10: a session with both slots set keeps a truthy order
slot across a digit-free turn, whose extraction falls back to the
remembered order id. -/
theorem witness_C10 :
    truthy (run (realEnv pedidosDB now0 nullAnswer)
      ⟨some "20002", some "Perfume floral", none⟩
      "quiero devolver mi pedido").2.1.last_order_id ≠ none
    ∧ (extraer_datos_pedido ⟨some "20002", some "Perfume floral", none⟩
        "quiero devolver mi pedido").1.order_id
      = truthy (some "20002") := by
  have h := claim_C10 (realEnv pedidosDB now0 nullAnswer)
    ⟨some "20002", some "Perfume floral", none⟩ "quiero devolver mi pedido"
  exact ⟨h.1 (by decide), h.2.2.2.2.1 (by decide)⟩

/-- Auxiliary for C3: in one `_flujo_devolucion` call, a label-issuance
event in the trace forces the full trace shape — the order lookup, then an
eligible verdict for the same (order id, product id) pair, then the
issuance. -/
theorem flujo_generar_trace (env : Env) (oid pid : Option String)
    (gO gP : String) (cat mot : Option String) (res : Except String Etiqueta)
    (h : Event.generar gO gP cat mot res ∈ (flujo_devolucion env oid pid).2) :
    ∃ est eleg,
      (flujo_devolucion env oid pid).2
        = [Event.consultar gO (some gP) (.ok est),
           Event.verificar gO gP "Solicitud del cliente" est.fecha_entrega "sellado"
             (.ok eleg),
           Event.generar gO gP cat mot res]
      ∧ eleg.es_elegible = true := by
  unfold flujo_devolucion at h ⊢
  rcases ho : truthy oid with _ | o
  · simp only [ho] at h
    exact absurd h (by simp)
  · simp only [ho] at h
    rcases hp : truthy pid with _ | p
    · simp only [hp] at h
      rcases hc : env.consultar o none with e | estado
      · simp only [hc] at h
        exact absurd h (by simp)
      · simp only [hc] at h
        by_cases hex : estado.existe = true
        · simp only [hex, Bool.not_true, Bool.false_eq_true, if_false] at h
          exact absurd h (by simp)
        · simp only [Bool.not_eq_true] at hex
          simp only [hex, Bool.not_false, if_true] at h
          exact absurd h (by simp)
    · simp only [hp] at h
      rcases hc : env.consultar o (some p) with e | estado
      · simp only [hc] at h
        exact absurd h (by simp)
      · simp only [hc] at h
        by_cases hex : estado.existe = true
        · simp only [hex, Bool.not_true, Bool.false_eq_true, if_false] at h ⊢
          by_cases hpe : estado.producto_existe.getD false = true
          · simp only [hpe, Bool.not_true, Bool.false_eq_true, if_false] at h ⊢
            by_cases hfe : estado.fue_entregado = true
            · simp only [hfe, Bool.not_true, Bool.false_eq_true, if_false] at h ⊢
              rcases hv : env.verificar o p "Solicitud del cliente" estado.fecha_entrega
                  "sellado" with e | eleg
              · simp only [hv] at h
                exact absurd h (by simp)
              · simp only [hv] at h
                by_cases hel : eleg.es_elegible = true
                · simp only [hel, Bool.not_true, Bool.false_eq_true, if_false] at h ⊢
                  rcases hg : env.generar o p eleg.categoria_proceso
                      (some "Solicitud del cliente") with e | etq
                  · simp only [hg] at h
                    simp only [List.mem_cons, List.not_mem_nil, or_false] at h
                    rcases h with h | h | h
                    · exact absurd h (by simp)
                    · exact absurd h (by simp)
                    · injection h with h1 h2 h3 h4 h5
                      subst h1; subst h2; subst h3; subst h4; subst h5
                      refine ⟨estado, eleg, ?_, hel⟩
                      simp only [ho, hp, hc, hv, hg, hex, hpe, hfe, hel, Bool.not_true,
                        Bool.false_eq_true, if_false]
                  · simp only [hg] at h
                    simp only [List.mem_cons, List.not_mem_nil, or_false] at h
                    rcases h with h | h | h
                    · exact absurd h (by simp)
                    · exact absurd h (by simp)
                    · injection h with h1 h2 h3 h4 h5
                      subst h1; subst h2; subst h3; subst h4; subst h5
                      refine ⟨estado, eleg, ?_, hel⟩
                      simp only [ho, hp, hc, hv, hg, hex, hpe, hfe, hel, Bool.not_true,
                        Bool.false_eq_true, if_false]
                · simp only [Bool.not_eq_true] at hel
                  simp only [hel, Bool.not_false, if_true] at h
                  exact absurd h (by simp)
            · simp only [Bool.not_eq_true] at hfe
              simp only [hfe, Bool.not_false, if_true] at h
              exact absurd h (by simp)
          · simp only [Bool.not_eq_true] at hpe
            simp only [hpe, Bool.not_false, if_true] at h
            exact absurd h (by simp)
        · simp only [Bool.not_eq_true] at hex
          simp only [hex, Bool.not_false, if_true] at h
          exact absurd h (by simp)

/-- C3: in every single `run`, if the label issuer was invoked (a
`generar` event is in the turn's trace), then the whole trace of that run
is exactly: the order lookup, immediately followed by an eligibility
verdict with `es_elegible = true` for the same (order id, product id)
pair, immediately followed by that label issuance — so a label is never
issued without an immediately preceding eligible verdict from the same
run. -/
theorem claim_C3 (env : Env) (ctx : Ctx) (query : String)
    (gO gP : String) (cat mot : Option String) (res : Except String Etiqueta)
    (h : Event.generar gO gP cat mot res ∈ (run env ctx query).2.2) :
    ∃ est eleg,
      (run env ctx query).2.2
        = [Event.consultar gO (some gP) (.ok est),
           Event.verificar gO gP "Solicitud del cliente" est.fecha_entrega "sellado"
             (.ok eleg),
           Event.generar gO gP cat mot res]
      ∧ eleg.es_elegible = true := by
  by_cases hI : (detectar_intencion query == INTENT_INFORMATIVA) = true
  · rw [show (run env ctx query).2.2 = [] from by simp [run, hI]] at h
    exact absurd h (by simp)
  · have hr : (run env ctx query).2.2
        = (flujo_devolucion env (extraer_datos_pedido ctx query).1.order_id
            (extraer_datos_pedido ctx query).1.product_id).2 := by
      simp [run, hI]
    rw [hr] at h ⊢
    exact flujo_generar_trace _ _ _ _ _ _ _ _ h

/-- Witness for C3: a successful return of `Perfume floral` from the
delivered order 20002 issues a label, and its trace has the required
lookup–eligible-verdict–issuance shape. -/
theorem witness_C3 :
    ∃ est eleg,
      (run (realEnv pedidosDB now0 nullAnswer) {}
        "quiero devolver el Perfume floral del pedido 20002").2.2
        = [Event.consultar "20002" (some "Perfume floral") (.ok est),
           Event.verificar "20002" "Perfume floral" "Solicitud del cliente"
             est.fecha_entrega "sellado" (.ok eleg),
           Event.generar "20002" "Perfume floral" (some "recoleccion_domicilio")
             (some "Solicitud del cliente")
             (.ok (generar_etiqueta_devolucion pedidosDB now0 "20002" "Perfume floral"
               (some "recoleccion_domicilio") none none (some "Solicitud del cliente")))]
      ∧ eleg.es_elegible = true :=
  claim_C3 (realEnv pedidosDB now0 nullAnswer) {}
    "quiero devolver el Perfume floral del pedido 20002" "20002" "Perfume floral"
    (some "recoleccion_domicilio") (some "Solicitud del cliente")
    (.ok (generar_etiqueta_devolucion pedidosDB now0 "20002" "Perfume floral"
      (some "recoleccion_domicilio") none none (some "Solicitud del cliente")))
    (by decide)

/-- Auxiliary: `Nat.digitChar` of a digit is a decimal digit character. -/
theorem isDigit_digitChar (n : Nat) (h : n < 10) : (Nat.digitChar n).isDigit = true := by
  interval_cases n <;> rfl

/-- Auxiliary: both characters of `pad2` are decimal digits. -/
theorem pad2_all_digits (n : Nat) : (pad2 n).data.all Char.isDigit = true := by
  have h1 := isDigit_digitChar (n / 10 % 10) (Nat.mod_lt _ (by omega))
  have h2 := isDigit_digitChar (n % 10) (Nat.mod_lt _ (by omega))
  simp [pad2, h1, h2]

/-- C8: for every issued label, the RMA identifier is exactly
`RMA-<current year>-<last 6 characters of the YYYYMMDDHHMMSS timestamp>`,
those 6 characters are the HHMMSS digits (exactly 6 decimal digits), and
the label URL is the deterministic function
`https://ecomarket.dev/devoluciones/<rma-id>.pdf` of the RMA identifier
(`devoluciones` is the returns path segment of the label host). -/
theorem claim_C8 (pedidos : List Pedido) (now : DateTime) (oid pid : String)
    (cat dir nom mot : Option String) (p : Pedido)
    (h : pedidos.find? (fun q => q.tracking_number == some oid) = some p) :
    (generar_etiqueta_devolucion pedidos now oid pid cat dir nom mot).rma_id
      = some ("RMA-" ++ toString now.date.year ++ "-" ++ pySliceLast 6 (strftime14 now))
    ∧ pySliceLast 6 (strftime14 now) = pad2 now.hour ++ pad2 now.minute ++ pad2 now.second
    ∧ (pySliceLast 6 (strftime14 now)).length = 6
    ∧ (pySliceLast 6 (strftime14 now)).data.all Char.isDigit = true
    ∧ (generar_etiqueta_devolucion pedidos now oid pid cat dir nom mot).etiqueta_pdf_url
      = some ("https://ecomarket.dev/devoluciones/"
          ++ ("RMA-" ++ toString now.date.year ++ "-" ++ pySliceLast 6 (strftime14 now))
          ++ ".pdf") := by
  have hslice : pySliceLast 6 (strftime14 now)
      = pad2 now.hour ++ pad2 now.minute ++ pad2 now.second := rfl
  refine ⟨?_, hslice, rfl, ?_, ?_⟩
  · unfold generar_etiqueta_devolucion
    simp [h]
  · rw [hslice]
    have hdata : (pad2 now.hour ++ pad2 now.minute ++ pad2 now.second).data
        = (pad2 now.hour).data ++ (pad2 now.minute).data ++ (pad2 now.second).data := rfl
    rw [hdata]
    simp [List.all_append, pad2_all_digits]
  · unfold generar_etiqueta_devolucion
    simp [h]

/-- Witness for C8: a concrete issuance at 2026-10-12 09:05:07. -/
theorem witness_C8 :
    (generar_etiqueta_devolucion [pedido20002] ⟨⟨2026, 10, 12⟩, 9, 5, 7⟩ "20002"
        "Perfume floral" (some "recoleccion_domicilio") none none none).rma_id
      = some "RMA-2026-090507"
    ∧ (generar_etiqueta_devolucion [pedido20002] ⟨⟨2026, 10, 12⟩, 9, 5, 7⟩ "20002"
        "Perfume floral" (some "recoleccion_domicilio") none none none).etiqueta_pdf_url
      = some "https://ecomarket.dev/devoluciones/RMA-2026-090507.pdf" := by
  have h := claim_C8 [pedido20002] ⟨⟨2026, 10, 12⟩, 9, 5, 7⟩ "20002" "Perfume floral"
    (some "recoleccion_domicilio") none none none pedido20002 (by decide)
  exact ⟨h.1.trans (by decide), h.2.2.2.2.trans (by decide)⟩

end EcoMarket
